import Mathlib

/-!
Verification development for the KASA rental-management application
(src/main.py). The Python source is shallowly embedded: pure string
helpers become Lean functions on String, the Streamlit session state
becomes an explicit record, button handlers become functions from their
inputs and the responses of external collaborators (identity provider,
record store, object store, the fpdf renderer, the clock) to an explicit
outcome value. External collaborator behaviour is passed in as function
or data parameters; everything written in src/main.py itself is
translated directly.
-/

namespace Kasa

/-- Characters matched by the regular-expression character class used in
sanitize_filename (src/main.py line 33): backslash, forward slash, colon,
asterisk, question mark, double quote, less-than, greater-than,
vertical bar. -/
def isForbiddenChar (c : Char) : Bool :=
  c == '\\' || c == '/' || c == ':' || c == '*' || c == '?' || c == '"' ||
    c == '<' || c == '>' || c == '|'

/-- Python re.sub of the forbidden character class with an underscore:
every matched character is replaced, every other character is kept in
place (src/main.py line 33). -/
def subForbidden (s : String) : String :=
  String.mk (s.data.map (fun c => if isForbiddenChar c then '_' else c))

/-- Python str.replace with a one-character pattern and a one-character
replacement substitutes every occurrence, i.e. acts characterwise
(src/main.py line 34 uses it to turn spaces into underscores). -/
def replaceChar (pat sub : Char) (s : String) : String :=
  String.mk (s.data.map (fun c => if c == pat then sub else c))

/-- Embedding of sanitize_filename (src/main.py lines 31-35): first the
regex substitution of the forbidden class, then the space replacement. -/
def sanitize_filename (name : String) : String :=
  replaceChar ' ' '_' (subForbidden name)

/-- Combined per-character action of sanitize_filename, used as a proof
vehicle: underscore for a forbidden character or a space, identity
otherwise. -/
def sanitizeCharModel (c : Char) : Char :=
  if isForbiddenChar c || c == ' ' then '_' else c

/-- Per-character action of the four smart-quote replacements of
safe_text_for_pdf (src/main.py line 27): the sequential str.replace calls
each have a one-character pattern and replacement, none of which is itself
a pattern, so together they act characterwise. -/
def smartQuoteFix (c : Char) : Char :=
  if c == '’' || c == '‘' then '\''
  else if c == '“' || c == '”' then '"'
  else c

/-- Embedding of safe_text_for_pdf (src/main.py lines 20-29). A None
input yields the empty string. The unicodedata.normalize NFC call is an
external library call and is modelled by the parameter nfc. After the
quote fixes the function returns the string: despite the source comment
on line 28 announcing that characters not encodable in latin-1 are
replaced, no such replacement is performed. -/
def safe_text_for_pdf (nfc : String → String) (s : Option String) : String :=
  match s with
  | none => ""
  | some t => String.mk (((nfc t).data).map smartQuoteFix)

/-- Whether a code point is representable in the single-byte latin-1
encoding. -/
def isLatin1 (c : Char) : Bool := c.toNat < 256

/-- Python encode latin-1 with errors replace (src/main.py line 77): the
code point of each representable character, the question mark byte 0x3F
for every other character. Total, never raises. -/
def latin1EncodeReplace (s : String) : List Nat :=
  s.data.map (fun c => if isLatin1 c then c.toNat else 0x3F)

/-- Embedding of generate_pdf_bytes (src/main.py lines 66-78): sanitize
the content, hand the title and the sanitized content to the fpdf
renderer (an external collaborator, modelled by the function render from
title and sanitized body to the PDF source string produced by
pdf.output), then encode the result as latin-1 with replacement. The
Python default for title is the string Document KASA; callers in the
claims always pass it explicitly. -/
def generate_pdf_bytes (nfc : String → String) (render : String → String → String)
    (content : String) (title : String) : List Nat :=
  latin1EncodeReplace (render title (safe_text_for_pdf nfc (some content)))

/-- Session identity as built by login_ui (src/main.py lines 180-185). -/
structure Identity where
  id : String
  email : String
  nom : String
  prenom : String
deriving DecidableEq

/-- Streamlit session state relevant to routing (src/main.py lines
116-119): the user field and the page field, a string among accueil,
auth, app. -/
structure SessionState where
  user : Option Identity
  page : String
deriving DecidableEq

/-- The view main renders for a given session state (src/main.py lines
476-514): the welcome page, the auth tabs, the warning plus auth tabs
shown when the app page is reached without a user, or the application
interface. -/
inductive RenderedView where
  | homeView
  | authView
  | warnAuthView
  | appView
deriving DecidableEq

/-- Embedding of the routing logic of main (src/main.py lines 481-514):
which view is rendered and the session state after the render. The render
itself never writes the user or page fields; transitions happen only in
button handlers. -/
def route (st : SessionState) : RenderedView × SessionState :=
  if st.page = "accueil" then (RenderedView.homeView, st)
  else if st.page = "auth" ∧ st.user = none then (RenderedView.authView, st)
  else if st.user = none then (RenderedView.warnAuthView, st)
  else (RenderedView.appView, st)

/-- Outcome of logout_action: the session state afterwards, the inline
status message, and whether an error message was surfaced. -/
structure LogoutResult where
  state : SessionState
  message : Option String
  errorShown : Bool
deriving DecidableEq

/-- The identity-provider sign-out call of logout_action, modelled as a
call that may fail (src/main.py line 194). -/
def try_sign_out (providerFails : Bool) : Except String Unit :=
  if providerFails then Except.error "network error" else Except.ok ()

/-- Embedding of logout_action (src/main.py lines 192-200): the provider
call sits in a try block whose except clause is pass, so both branches
continue identically; the user field is cleared, the page is reset to
accueil, a success message is shown and no error is surfaced. -/
def logout_action (providerFails : Bool) (st : SessionState) : LogoutResult :=
  match try_sign_out providerFails with
  | Except.ok _ =>
      { state := { user := none, page := "accueil" },
        message := some "Déconnecté.", errorShown := false }
  | Except.error _ =>
      { state := { user := none, page := "accueil" },
        message := some "Déconnecté.", errorShown := false }

/-- The user object returned by the identity provider on successful
sign-in (src/main.py line 172). -/
structure UserObj where
  id : String
  email : String
deriving DecidableEq

/-- A profile row of the utilisateurs table (src/main.py lines 150-154). -/
structure Profil where
  nom : String
  prenom : String
deriving DecidableEq

/-- Response of the sign_in_with_password collaborator call: either the
call raised, or it returned with a possibly absent user object. -/
inductive AuthResponse where
  | raised (msg : String)
  | success (userObj : Option UserObj)
deriving DecidableEq

/-- Outcome of a login attempt: the session state afterwards and the
error message, if one was shown. -/
structure LoginOutcome where
  state : SessionState
  error : Option String
deriving DecidableEq

/-- Embedding of the submit handler of login_ui (src/main.py lines
165-190). Empty email or password aborts with an error before the
provider is called. A raised provider call is caught and shown as an
error, leaving the state untouched. A response without a user object
shows the failed-authentication error, leaving the state untouched. On
success the profile is looked up (lookup models the utilisateurs select
by id), missing profile fields default to the empty string, the user
field is set and the page becomes app. -/
def login_attempt (email password : String) (resp : AuthResponse)
    (lookup : String → Option Profil) (st : SessionState) : LoginOutcome :=
  if email == "" || password == "" then
    { state := st, error := some "Email et mot de passe requis." }
  else
    match resp with
    | AuthResponse.raised msg =>
        { state := st, error := some ("Erreur de connexion : " ++ msg) }
    | AuthResponse.success none =>
        { state := st, error := some "Échec. Vérifiez vos identifiants." }
    | AuthResponse.success (some u) =>
        let prof := lookup u.id
        { state := { user := some { id := u.id, email := u.email,
                                    nom := (prof.map Profil.nom).getD "",
                                    prenom := (prof.map Profil.prenom).getD "" },
                     page := "app" },
          error := none }

/-- Decides whether a provider response counts as a rejection: the call
raised, or it returned no user object. -/
def rejectedResponse : AuthResponse → Bool
  | AuthResponse.raised _ => true
  | AuthResponse.success none => true
  | AuthResponse.success (some _) => false

/-- Observable effects of the signup submit handler, in order: inline
error message, inline success message, identity-provider sign-up call,
profile insert into the utilisateurs table. -/
inductive SignupEffect where
  | errorMsg (s : String)
  | successMsg (s : String)
  | providerSignUp (email password : String)
  | profileInsert (id nom prenom : String)
deriving DecidableEq

/-- Response of the sign_up collaborator call for the object-style
client of src/main.py: either the call raised, or it returned with a
possibly absent user id (absent when email confirmation is pending). -/
inductive SignUpResp where
  | ok (userId : Option String)
  | raised (msg : String)
deriving DecidableEq

/-- Embedding of the submit handler of signup_ui (src/main.py lines
127-159). The Python guard not all on the four fields is true exactly
when one of the strings is empty; in that case an error is shown and the
handler returns before any collaborator call. Otherwise the provider is
called; a raised call is caught and shown as an error; with a user id the
profile row is inserted and success shown; without one only a success
message is shown. -/
def signup_step (nom prenom email password : String) (resp : SignUpResp) :
    List SignupEffect :=
  if nom == "" || prenom == "" || email == "" || password == "" then
    [SignupEffect.errorMsg "Tous les champs sont obligatoires."]
  else
    SignupEffect.providerSignUp email password ::
      (match resp with
       | SignUpResp.raised msg =>
           [SignupEffect.errorMsg ("Erreur lors de la création du compte : " ++ msg)]
       | SignUpResp.ok (some uid) =>
           [SignupEffect.profileInsert uid nom prenom,
            SignupEffect.successMsg "Compte créé et profil enregistré."]
       | SignUpResp.ok none =>
           [SignupEffect.successMsg "Compte créé. Vérifiez votre e-mail si nécessaire."])

/-- A row of the biens table (src/main.py lines 225-234, fields used by
the queries of the claims). -/
structure BienRow where
  id : String
  utilisateur_id : String
  nom : String
  adresse : String
deriving DecidableEq

/-- A row of the paiements table as inserted by the payment handler
(src/main.py lines 420-429); note the row carries no owner column. -/
structure PaiementRow where
  id : String
  contrat_id : Option String
  mois : String
  annee : Nat
  montant : Nat
  statut : String
  quittance_url : Option String
deriving DecidableEq

/-- The record store visible to the embedded queries: the biens table and
the paiements table, each a list of rows possibly created by many
different users and sessions. -/
structure Database where
  biens : List BienRow
  paiements : List PaiementRow
deriving DecidableEq

/-- Embedding of the biens query (src/main.py line 239 and similar): a
select filtered with eq on utilisateur_id against the session user. -/
def user_biens (user : Identity) (db : Database) : List BienRow :=
  db.biens.filter (fun b => b.utilisateur_id == user.id)

/-- Embedding of the recent-payments listing of the rent-tracking page
(src/main.py line 440): select star on paiements with no filter at all;
the session user is available at the call site but unused. -/
def suivi_recent_payments (user : Identity) (db : Database) : List PaiementRow :=
  db.paiements

/-- Embedding of the dashboard payments query (src/main.py line 451):
select star on paiements with no filter at all; the session user is
available at the call site but unused. -/
def dashboard_payments (user : Identity) (db : Database) : List PaiementRow :=
  db.paiements

/-- Modules imported by src/main.py (lines 1-8). -/
def importedModules : List String :=
  ["streamlit", "supabase", "fpdf", "io", "datetime", "pandas", "re", "unicodedata"]

/-- Python name resolution for the global name uuid used on src/main.py
lines 347, 357 and 421: the name is bound only if the uuid module was
imported; src/main.py never imports it, so evaluating the expression
uuid.uuid4() raises NameError at run time. -/
def uuidAvailable : Bool := importedModules.contains "uuid"

/-- The quittance body built by the payment handler (src/main.py lines
395-409), an exact transcription of the f-string with the interpolated
values as parameters; today models the datetime.today() strftime call. -/
def quittance_text (nfc : String → String) (user : Identity)
    (adresse locataire mois : String) (annee montant : Nat) (today : String) : String :=
  "\nQUITTANCE DE LOYER\n\nJe soussigné, " ++ user.prenom ++ " " ++ user.nom ++
    ", propriétaire du logement situé à :\n" ++ safe_text_for_pdf nfc (some adresse) ++
    ",\n\nreconnais avoir reçu de :\n" ++ locataire ++
    ",\n\nla somme de " ++ toString montant ++
    " FCFA au titre du loyer du mois de " ++ mois ++ " " ++ toString annee ++
    ".\n\nFait à " ++ safe_text_for_pdf nfc (some adresse) ++ ", le " ++ today ++
    "\n\nSignature du bailleur : " ++ user.prenom ++ " " ++ user.nom ++ "\n"

/-- The upload request issued to the object store. -/
structure UploadRequest where
  path : String
  contentType : String
deriving DecidableEq

/-- Embedding of the path and header computation of
upload_pdf_to_supabase (src/main.py lines 83-101): the raw filename is
sanitized and prefixed with the auth user id, and the upload carries the
pdf content type. -/
def upload_pdf_to_supabase (filename auth_user_id : String) : UploadRequest :=
  { path := auth_user_id ++ "/" ++ sanitize_filename filename,
    contentType := "application/pdf" }

/-- Observable outcome of the payment handler: the receipt body, the
upload request, the paiements row actually inserted (none when the insert
failed), and the warning shown when it failed. -/
structure PaymentRecordingOutcome where
  receipt : String
  upload : UploadRequest
  insertedPayment : Option PaiementRow
  warning : Option String
deriving DecidableEq

/-- Embedding of the Enregistrer paiement handler (src/main.py lines
393-436): build the receipt text, generate the PDF, upload it under the
session user id, then attempt the paiements insert. The insert row
construction evaluates uuid.uuid4(); the uuid name is unbound (uuid is
not among importedModules), so a NameError is raised inside the try
block, caught by the except clause which shows a warning, and no row is
inserted. freshId models the uuid the row would carry if the name
resolved; uploadUrl is the public url returned by the object store (none
when the upload failed). -/
def record_payment (nfc : String → String) (user : Identity)
    (adresse locataire mois : String) (annee montant : Nat)
    (statut today : String) (uploadUrl : Option String) (freshId : String) :
    PaymentRecordingOutcome :=
  let txt := quittance_text nfc user adresse locataire mois annee montant today
  let filename := "quittance_" ++ mois ++ "_" ++ toString annee ++ "_" ++
    sanitize_filename locataire ++ ".pdf"
  let req := upload_pdf_to_supabase filename user.id
  if uuidAvailable then
    { receipt := txt, upload := req,
      insertedPayment := some { id := freshId, contrat_id := none, mois := mois,
                                annee := annee, montant := montant, statut := statut,
                                quittance_url := uploadUrl },
      warning := none }
  else
    { receipt := txt, upload := req, insertedPayment := none,
      warning := some "Erreur insertion paiement : NameError, name uuid is not defined" }

/-! Helper lemmas shared by several claims. -/

/-- The two replacement passes of sanitize_filename compose into the
single per-character action sanitizeCharModel. -/
lemma sanitize_filename_data (s : String) :
    (sanitize_filename s).data = s.data.map sanitizeCharModel := by
  unfold sanitize_filename replaceChar subForbidden sanitizeCharModel
  simp only [List.map_map]
  refine List.map_congr_left ?_
  intro c _
  by_cases h : isForbiddenChar c = true
  · simp [h, Function.comp]
  · by_cases hs : c == ' '
    · simp [h, hs, Function.comp]
    · simp [h, hs, Function.comp]

/-- The per-character action of sanitize_filename is idempotent: an
underscore is neither forbidden nor a space. -/
lemma sanitizeCharModel_idem (c : Char) :
    sanitizeCharModel (sanitizeCharModel c) = sanitizeCharModel c := by
  unfold sanitizeCharModel
  by_cases h : (isForbiddenChar c || c == ' ') = true
  · simp [h]
  · simp [h]

/-! Claim theorems. -/

/-- C1 counterexample: with the page field app and an empty Identity, the
router leaves the stored page equal to app, not accueil, refuting the
claimed fallback to Home with a cleared page field. -/
theorem C1_counterexample_page_not_cleared :
    (route { user := none, page := "app" }).2.page = "app" ∧
    ¬ (route { user := none, page := "app" }).2.page = "accueil" := by
  decide

/-- C1 (amended): whenever the page field is app and the Identity is
empty, the router renders the warning-plus-authentication view and leaves
the session state, in particular the stored page field, unchanged; it
does not reset the page to accueil. -/
theorem C1_app_without_user_keeps_state (st : SessionState)
    (hu : st.user = none) (hp : st.page = "app") :
    (route st).1 = RenderedView.warnAuthView ∧ (route st).2 = st := by
  cases st with
  | mk u p =>
      obtain rfl : u = none := hu
      obtain rfl : p = "app" := hp
      decide

/-- C1 witness: the amended router theorem applied at the concrete state
with empty user and page app. -/
theorem C1_app_without_user_keeps_state_witness :
    (route { user := none, page := "app" }).1 = RenderedView.warnAuthView ∧
    (route { user := none, page := "app" }).2 =
      ({ user := none, page := "app" } : SessionState) :=
  C1_app_without_user_keeps_state { user := none, page := "app" } rfl rfl

set_option maxRecDepth 40000 in
/-- C2: evaluation of the payment-recording handler at the claimed
scenario (amount 50000, month Mars, year 2025, tenant Fall): the upload
path and the two receipt substrings are as claimed, but no payment row is
inserted and a warning is shown instead, because the row construction
evaluates the unbound name uuid and raises NameError. -/
theorem C2_scenario_insert_fails :
    (record_payment id { id := "owner-1", email := "awa@example.com", nom := "Diop", prenom := "Awa" } "Dakar" "Fall" "Mars" 2025 50000 "Payé" "12/10/2026" (some "url") "fresh").upload.path = "owner-1/quittance_Mars_2025_Fall.pdf" ∧
    List.IsInfix ("50000 FCFA").data (record_payment id { id := "owner-1", email := "awa@example.com", nom := "Diop", prenom := "Awa" } "Dakar" "Fall" "Mars" 2025 50000 "Payé" "12/10/2026" (some "url") "fresh").receipt.data ∧
    List.IsInfix ("Mars 2025").data (record_payment id { id := "owner-1", email := "awa@example.com", nom := "Diop", prenom := "Awa" } "Dakar" "Fall" "Mars" 2025 50000 "Payé" "12/10/2026" (some "url") "fresh").receipt.data ∧
    (record_payment id { id := "owner-1", email := "awa@example.com", nom := "Diop", prenom := "Awa" } "Dakar" "Fall" "Mars" 2025 50000 "Payé" "12/10/2026" (some "url") "fresh").insertedPayment = none ∧
    (record_payment id { id := "owner-1", email := "awa@example.com", nom := "Diop", prenom := "Awa" } "Dakar" "Fall" "Mars" 2025 50000 "Payé" "12/10/2026" (some "url") "fresh").warning ≠ none := by
  decide

/-- C3 counterexample: an accented letter passes through
sanitize_filename unchanged, so the input appears unchanged in the
output, refuting the claim that accented letters are replaced by an
underscore. -/
theorem C3_counterexample_accent_unchanged :
    sanitize_filename "é" = "é" ∧ sanitize_filename "é" ≠ "_" := by
  decide

/-- C3 (amended): sanitize_filename replaces exactly the characters
backslash, slash, colon, asterisk, question mark, double quote,
less-than, greater-than, vertical bar and the space with an underscore,
and leaves every other character, accented letters and single quotes
included, unchanged in place. -/
theorem C3_sanitize_charwise (s : String) :
    (sanitize_filename s).data =
      s.data.map (fun c => if isForbiddenChar c || c == ' ' then '_' else c) := by
  rw [sanitize_filename_data]
  rfl

/-- C4: the text-sanitization step passes a code point outside latin-1
(the rightwards arrow, U+2192) through unchanged, contradicting the
replace-with-placeholder policy announced in its own source comment; the
replacement only happens later at byte-encoding time. -/
theorem C4_safe_text_keeps_nonlatin1 :
    safe_text_for_pdf id (some "→") = "→" ∧
    ((safe_text_for_pdf id (some "→")).data.all isLatin1) = false := by
  decide

/-- C5: with the renderer modelled as a fixed function (the stable
renderer of the claim) and a fixed normalization, two calls of
generate_pdf_bytes on identical content and title strings produce
identical byte lists. -/
theorem C5_generate_pdf_bytes_deterministic (nfc : String → String)
    (render : String → String → String) (c1 c2 t1 t2 : String)
    (hc : c1 = c2) (ht : t1 = t2) :
    generate_pdf_bytes nfc render c1 t1 = generate_pdf_bytes nfc render c2 t2 := by
  rw [hc, ht]

/-- C5 witness: the determinism theorem applied at a concrete content and
title with a concrete renderer. -/
theorem C5_generate_pdf_bytes_deterministic_witness :
    generate_pdf_bytes id (fun t b => t ++ b) "corps" "Quittance de loyer" =
      generate_pdf_bytes id (fun t b => t ++ b) "corps" "Quittance de loyer" :=
  C5_generate_pdf_bytes_deterministic id (fun t b => t ++ b) "corps" "corps"
    "Quittance de loyer" "Quittance de loyer" rfl rfl

/-- C6: both the rent-tracking payment listing and the dashboard query
return the whole paiements table for every database and every session
user, independently of the session Identity: no owner or session filter
is applied. -/
theorem C6_payments_listing_unfiltered (u1 u2 : Identity) (db : Database) :
    suivi_recent_payments u1 db = db.paiements ∧
    dashboard_payments u1 db = db.paiements ∧
    suivi_recent_payments u1 db = suivi_recent_payments u2 db ∧
    dashboard_payments u1 db = dashboard_payments u2 db :=
  ⟨rfl, rfl, rfl, rfl⟩

/-- C7: for every run of logout_action, whether or not the provider
invalidation call fails, the session user is cleared, the page is reset
to accueil, and no error is surfaced. -/
theorem C7_logout_always_clears (providerFails : Bool) (st : SessionState) :
    (logout_action providerFails st).state.user = none ∧
    (logout_action providerFails st).state.page = "accueil" ∧
    (logout_action providerFails st).errorShown = false := by
  cases providerFails <;> exact ⟨rfl, rfl, rfl⟩

/-- C8: for every login attempt in which the provider raised or returned
no user object, an error is reported and the session state is returned
exactly equal to its prior value. -/
theorem C8_login_rejected_state_unchanged (email password : String)
    (resp : AuthResponse) (lookup : String → Option Profil) (st : SessionState)
    (h : rejectedResponse resp = true) :
    (login_attempt email password resp lookup st).state = st ∧
    (login_attempt email password resp lookup st).error ≠ none := by
  cases resp with
  | raised msg =>
      by_cases he : (email == "" || password == "") = true
      · simp [login_attempt, he]
      · simp [login_attempt, he]
  | success u =>
      cases u with
      | none =>
          by_cases he : (email == "" || password == "") = true
          · simp [login_attempt, he]
          · simp [login_attempt, he]
      | some uo => simp [rejectedResponse] at h

/-- C8 witness: the rejected-login theorem applied at the concrete
attempt of the spec scenario, with the provider returning no user
object. -/
theorem C8_login_rejected_state_unchanged_witness :
    (login_attempt "awa@example.com" "wrong" (AuthResponse.success none)
        (fun _ => none) { user := none, page := "auth" }).state =
      ({ user := none, page := "auth" } : SessionState) ∧
    (login_attempt "awa@example.com" "wrong" (AuthResponse.success none)
        (fun _ => none) { user := none, page := "auth" }).error ≠ none :=
  C8_login_rejected_state_unchanged "awa@example.com" "wrong"
    (AuthResponse.success none) (fun _ => none) { user := none, page := "auth" } rfl

/-- C9: sanitize_filename is idempotent: applying it twice yields the
same string as applying it once. -/
theorem C9_sanitize_filename_idempotent (s : String) :
    sanitize_filename (sanitize_filename s) = sanitize_filename s := by
  apply String.ext
  rw [sanitize_filename_data, sanitize_filename_data, List.map_map]
  exact List.map_congr_left fun c _ => sanitizeCharModel_idem c

/-- C10: whenever one of the four signup fields is empty, the signup
handler produces exactly the single validation error message, so no
identity-provider call and no profile insert occurs. -/
theorem C10_signup_empty_field_validation (nom prenom email password : String)
    (resp : SignUpResp)
    (h : nom = "" ∨ prenom = "" ∨ email = "" ∨ password = "") :
    signup_step nom prenom email password resp =
      [SignupEffect.errorMsg "Tous les champs sont obligatoires."] := by
  have hb : (nom == "" || prenom == "" || email == "" || password == "") = true := by
    rcases h with h | h | h | h <;> simp [h]
  simp [signup_step, hb]

/-- C10 witness: the validation theorem applied at a concrete signup
attempt whose second field is empty. -/
theorem C10_signup_empty_field_validation_witness :
    signup_step "Diop" "" "awa@example.com" "secret123" (SignUpResp.ok (some "uid-1")) =
      [SignupEffect.errorMsg "Tous les champs sont obligatoires."] :=
  C10_signup_empty_field_validation "Diop" "" "awa@example.com" "secret123"
    (SignUpResp.ok (some "uid-1")) (Or.inr (Or.inl rfl))

end Kasa
